import Mathlib

/-
Shallow embedding of src/app/utils/wrappers.py (plex-mcp-server).

The file models the registration-and-invocation core: the decorator
composer (apply_decorators), the instrumentation wrapper
(log_function_call), the error-normalizing wrapper (handle_api_errors),
and the pending-component singleton (PendingMCPComponents) with its
add / process / get_pending operations.

Python values, exceptions and attribute access are modelled explicitly,
because the source stores handler metadata in plain dicts and later reads
it back with attribute access, and because the error formatter applies the
substring operator "Dict" in return_type to the handler's return
annotation object.  Wall-clock time is abstracted: the instrumentation
wrapper's two debug emissions are modelled as structured log records,
their timestamps are not.
-/

namespace PlexWrappers

/-- Python exceptions relevant to wrappers.py: the httpx exception classes
matched by handle_api_errors's except chain, plus AttributeError and
TypeError (raised by attribute access on a dict and by the substring
operator on a non-string), plus a catch-all for any other Exception.
Each carries the text that str(e) would show where the code uses it. -/
inductive PyErr where
  | attrErr (missing : String)
  | typeErr (msg : String)
  | connectErr (url : String)
  | timeoutErr (url : String)
  | statusErr (code : Nat) (reason : String)
  | requestErr (msg : String)
  | otherErr (msg : String)

/-- Python values as wrappers.py manipulates them: strings, integers,
booleans, None, dicts (ordered key/value lists, as the source builds them
with dict literals), lists, and generic objects with named attributes
(what the metadata would have to be for attribute access to succeed). -/
inductive PyVal where
  | str (s : String)
  | int (n : Int)
  | bool (b : Bool)
  | noneV
  | dict (entries : List (String × PyVal))
  | list (xs : List PyVal)
  | obj (attrs : List (String × PyVal))

/-- Python attribute access, getattr(v, a): succeeds only on an object
whose attribute table has the name; dict entries are NOT attributes, so
reading .name from a dict raises AttributeError, exactly as
component._tool_metadata.name does in _process_component. -/
def getattr : PyVal → String → Except PyErr PyVal
  | .obj attrs, a =>
    match attrs.lookup a with
    | some v => .ok v
    | none => .error (.attrErr a)
  | _, a => .error (.attrErr a)

/-- What str(e) yields for the exceptions whose text the source
interpolates (RequestError and the generic Exception case). -/
def pyStr : PyErr → String
  | .attrErr m => m
  | .typeErr m => m
  | .connectErr u => u
  | .timeoutErr u => u
  | .statusErr _ r => r
  | .requestErr m => m
  | .otherErr m => m

/-- The return annotation of a Python function as
inspect.signature(func).return_annotation produces it: a string literal
annotation (the only case the substring test in format_error can handle),
a type or typing object (e.g. the class str used by every handler in
src/app/modules/client.py), or inspect.Signature.empty. -/
inductive RetAnn where
  | strAnn (s : String)
  | typeAnn (tyName : String)
  | emptyAnn

/-- Whether the first character list occurs at the head of the second. -/
def charsAtHead : List Char → List Char → Bool
  | [], _ => true
  | _ :: _, [] => false
  | n :: ns, h :: hs => n == h && charsAtHead ns hs

/-- Whether the first character list occurs anywhere in the second. -/
def charsContain (needle : List Char) : List Char → Bool
  | [] => needle.isEmpty
  | h :: hs => charsAtHead needle (h :: hs) || charsContain needle hs

/-- Python substring containment, needle in hay, for strings. -/
def strContains (needle hay : String) : Bool :=
  charsContain needle.toList hay.toList

/-- format_error from handle_api_errors (wrappers.py lines 173-179).
The source evaluates "Dict" in return_type and "List" in return_type;
the in operator is substring containment when return_type is a string
and raises TypeError ("argument of type ... is not iterable") when it is
a type object or inspect.Signature.empty. -/
def format_error (returnType : RetAnn) (msg : String) : Except PyErr PyVal :=
  match returnType with
  | .strAnn s =>
    if strContains "Dict" s then .ok (.dict [("error", .str msg)])
    else if strContains "List" s then .ok (.list [.dict [("error", .str msg)]])
    else .ok (.str msg)
  | .typeAnn _ => .error (.typeErr "argument of type is not iterable")
  | .emptyAnn => .error (.typeErr "argument of type is not iterable")

/-- One debug-severity diagnostic record of the instrumentation wrapper:
the pre-call record names the logger (func.__module__ : func.__name__)
and the call arguments; the post-call record is the one carrying the
elapsed duration (the duration value itself is wall-clock and abstracted
away). -/
inductive LogRec where
  | preCall (logger : String) (args : List PyVal)
  | postCall (logger : String)

/-- A Python function object as the wrappers see it: __module__ and
__name__ (copied along by functools.wraps), whether it is a coroutine
function (asyncio.iscoroutinefunction), its return annotation, and its
behaviour: arguments to (emitted log records, normal value or raised
exception). -/
structure PyFunc where
  modName : String
  funcName : String
  isAsync : Bool
  retAnn : RetAnn
  run : List PyVal → List LogRec × Except PyErr PyVal

/-- What handle_api_errors returns: a function (the async branch returns
async_wrapper) or a plain value (the sync branch, line 240, returns
sync_wrapper() - the RESULT of calling the wrapper with no arguments -
together with whatever log records that wrap-time call emitted). -/
inductive WrapResult where
  | func (f : PyFunc)
  | value (lg : List LogRec) (r : Except PyErr PyVal)

/-- apply_decorators (wrappers.py lines 112-120): for deco in
reversed(decorators): func = deco(func).  The *args tuple is modelled as
a list; the loop is a fold over the reversed list. -/
def apply_decorators {α : Type} (decorators : List (α → α)) : α → α :=
  fun func => decorators.reverse.foldl (fun f deco => deco f) func

/-- log_function_call (wrappers.py lines 123-159).  Both branches (async
and sync) behave identically up to the wording of the messages: build the
logger name func.__module__:func.__name__, emit the pre-call record with
the arguments, call func, and in a finally block emit the duration
record, so the post-call record is emitted on every exit path and the
inner result (value or exception) passes through unchanged.  functools
wraps preserves the function's metadata, and the wrapper is a coroutine
function exactly when func is. -/
def log_function_call (func : PyFunc) : PyFunc :=
  { func with
    run := fun args =>
      let logger := func.modName ++ ":" ++ func.funcName
      let p := func.run args
      (LogRec.preCall logger args :: p.1 ++ [LogRec.postCall logger], p.2) }

/-- The except chain of handle_api_errors (lines 190-208 / 220-238):
httpx.ConnectError, then httpx.TimeoutException, then
httpx.HTTPStatusError, then httpx.RequestError, then Exception, first
match wins; each arm calls format_error with its message.  An exception
raised by format_error itself (the TypeError for a non-string
annotation) propagates out of the except block. -/
def handleException (returnType : RetAnn) : PyErr → Except PyErr PyVal
  | .connectErr url =>
    format_error returnType ("Connection error: Cannot connect to resource at " ++ url)
  | .timeoutErr url =>
    format_error returnType ("Timeout error: Resource at " ++ url ++ " did not respond in time")
  | .statusErr code reason =>
    format_error returnType ("HTTP error: Server responded with " ++ toString code ++ " - " ++ reason)
  | .requestErr m => format_error returnType ("Request error: " ++ m)
  | e => format_error returnType ("Unexpected error: " ++ pyStr e)

/-- handle_api_errors (wrappers.py lines 162-240).  For a coroutine
function it returns async_wrapper: read the return annotation (wraps
makes it the original's), await func, normalize a raised exception with
the except chain.  For a sync function, line 240 reads
"return cast(FuncType, sync_wrapper())": it CALLS sync_wrapper with no
arguments at wrapping time and returns the resulting value (plus the log
records that call emitted), not a callable. -/
def handle_api_errors (func : PyFunc) : WrapResult :=
  if func.isAsync then
    .func
      { func with
        run := fun args =>
          let returnType := func.retAnn
          let p := func.run args
          match p.2 with
          | .ok v => (p.1, .ok v)
          | .error e => (p.1, handleException returnType e) }
  else
    let returnType := func.retAnn
    let p := func.run []
    .value p.1
      (match p.2 with
       | .ok v => .ok v
       | .error e => handleException returnType e)

/-- log_and_handle_errors (wrappers.py lines 243-253):
apply_decorators(handle_api_errors, log_function_call)(func), which by
the composition order of apply_decorators (first decorator outermost) is
handle_api_errors(log_function_call(func)). -/
def log_and_handle_errors (func : PyFunc) : WrapResult :=
  handle_api_errors (log_function_call func)

/-- A function value with metadata attributes attached, as built by the
metadata decorators: the underlying function plus the optional attributes
_tool_metadata, _resource_metadata, _prompt_metadata and
_custom_route_metadata (hasattr tests become Option.isSome). -/
structure Component where
  func : PyFunc
  toolMeta : Option PyVal
  resourceMeta : Option PyVal
  promptMeta : Option PyVal
  routeMeta : Option PyVal

/-- One call observed on the FastMCP app's native registration surface:
app.tool(name, description, ...), app.resource(uri, name, description,
mime_type) or app.prompt(name, description, tags), with the keyword
argument values that were passed. -/
inductive RegCall where
  | toolReg (name description anns : PyVal)
  | resourceReg (uri name description mimeType : PyVal)
  | promptReg (name description tags : PyVal)

/-- The keyword-argument extraction performed by _process_component
(wrappers.py lines 63-90) for a component that is already known to have
a bound app: probe _tool_metadata, then _resource_metadata, then
_prompt_metadata (elif chain); read each metadata field with attribute
access (which raises AttributeError on the dicts the decorators store);
a component with none of the three attributes, in particular one
carrying only _custom_route_metadata, falls through to the final
return None (line 91) without any registration call. -/
def regCallOf (c : Component) : Except PyErr (Option RegCall) :=
  match c.toolMeta with
  | some m => do
    let nm ← getattr m "name"
    let ds ← getattr m "description"
    let an ← getattr m "annotations"
    pure (some (.toolReg nm ds an))
  | none =>
    match c.resourceMeta with
    | some m => do
      let uri ← getattr m "uri"
      let nm ← getattr m "name"
      let ds ← getattr m "description"
      let mt ← getattr m "mime_type"
      pure (some (.resourceReg uri nm ds mt))
    | none =>
      match c.promptMeta with
      | some m => do
        let nm ← getattr m "name"
        let ds ← getattr m "description"
        let tg ← getattr m "tags"
        pure (some (.promptReg nm ds tg))
      | none => pure none

/-- The state of the PendingMCPComponents singleton plus the observable
behaviour of the external FastMCP app: components is self.components,
mcpApp is self._mcpApp (server instances identified by a number), and
regLog is the ordered list of registration calls the bound app(s) have
received, each tagged with the server it was made on. -/
structure QState where
  components : List Component
  mcpApp : Option Nat
  regLog : List (Nat × RegCall)

/-- _process_component (wrappers.py lines 60-91): if self._mcpApp is
None, return the component (the caller will queue it); otherwise extract
the metadata keyword arguments and invoke the matching registration
entry point on the app - the registration decorator returned by
app.tool/resource/prompt is applied to
log_and_handle_errors(component) via apply_decorators, which is the
app-side effect recorded in regLog - and return None.  An
AttributeError raised while reading the metadata propagates before any
registration call is made. -/
def processComponent (s : QState) (c : Component) :
    QState × Except PyErr (Option Component) :=
  match s.mcpApp with
  | none => (s, .ok (some c))
  | some srv =>
    match regCallOf c with
    | .error e => (s, .error e)
    | .ok none => (s, .ok none)
    | .ok (some rc) =>
      ({ s with regLog := s.regLog ++ [(srv, rc)] }, .ok none)

/-- The loop "for component in components: self._process_component(component)"
of process (wrappers.py lines 57-58): an exception raised by
_process_component aborts the loop and propagates. -/
def processAll (s : QState) : List Component → QState × Except PyErr Unit
  | [] => (s, .ok ())
  | c :: rest =>
    match processComponent s c with
    | (s1, .error e) => (s1, .error e)
    | (s1, .ok _) => processAll s1 rest

/-- process (wrappers.py lines 47-58): set self._mcpApp = app
(unconditionally, every call), snapshot self.components with copy(),
clear self.components, then process the snapshot in order. -/
def process (s : QState) (srv : Nat) : QState × Except PyErr Unit :=
  let s0 : QState := { s with mcpApp := some srv }
  let snap := s0.components
  let s1 : QState := { s0 with components := [] }
  processAll s1 snap

/-- add (wrappers.py lines 93-105): run _process_component on the
function; if it returned None (the component was registered, dropped, or
an app is bound), do not queue; if it returned the component (no app
bound yet), append it to self.components.  Either way the original
function is handed back to the caller unchanged, so the interesting
result is the state and whether an exception escaped. -/
def add (s : QState) (c : Component) : QState × Except PyErr Unit :=
  match processComponent s c with
  | (s1, .error e) => (s1, .error e)
  | (s1, .ok none) => (s1, .ok ())
  | (s1, .ok (some _)) => ({ s1 with components := s1.components ++ [c] }, .ok ())

/-- get_pending (wrappers.py lines 107-109): returns self.components. -/
def get_pending (s : QState) : List Component :=
  s.components

/-- tool_metadata (wrappers.py lines 267-292): stores a plain dict
{"name": name, "description": description, "annotations": annotations or {}}
in the function's _tool_metadata attribute (and hands the function to
add_pending).  annotations or {} is the given value when present and the
empty dict when None. -/
def tool_metadata (name description : String) (anns : Option PyVal)
    (func : PyFunc) : Component :=
  { func := func
    toolMeta := some (.dict
      [("name", .str name), ("description", .str description),
       ("annotations", anns.getD (.dict []))])
    resourceMeta := none
    promptMeta := none
    routeMeta := none }

/-- resource_metadata (wrappers.py lines 295-323): stores the dict
{"uri", "name", "description", "mime_type"} in _resource_metadata. -/
def resource_metadata (uri : String) (name description mimeType : Option String)
    (func : PyFunc) : Component :=
  { func := func
    toolMeta := none
    resourceMeta := some (.dict
      [("uri", .str uri), ("name", (name.map PyVal.str).getD .noneV),
       ("description", (description.map PyVal.str).getD .noneV),
       ("mime_type", (mimeType.map PyVal.str).getD .noneV)])
    promptMeta := none
    routeMeta := none }

/-- prompt_metadata (wrappers.py lines 326-344): stores the dict
{"name", "description"} in _prompt_metadata (note: no "tags" key, though
_process_component reads a tags attribute). -/
def prompt_metadata (name description : Option String) (func : PyFunc) : Component :=
  { func := func
    toolMeta := none
    resourceMeta := none
    promptMeta := some (.dict
      [("name", (name.map PyVal.str).getD .noneV),
       ("description", (description.map PyVal.str).getD .noneV)])
    routeMeta := none }

/-- custom_route_metadata (wrappers.py lines 347-374): stores the dict
{"path", "methods", "name", "include_in_schema"} in
_custom_route_metadata. -/
def custom_route_metadata (path : String) (methods : List String)
    (name : Option String) (includeInSchema : Bool) (func : PyFunc) : Component :=
  { func := func
    toolMeta := none
    resourceMeta := none
    promptMeta := none
    routeMeta := some (.dict
      [("path", .str path), ("methods", .list (methods.map PyVal.str)),
       ("name", (name.map PyVal.str).getD .noneV),
       ("include_in_schema", .bool includeInSchema)]) }

/-- Applies a wrapping result to arguments: a function result runs, the
wrap-time-computed value of the buggy sync branch is not callable. -/
def runWrapped (w : WrapResult) (args : List PyVal) :
    Option (List LogRec × Except PyErr PyVal) :=
  match w with
  | .func f => some (f.run args)
  | .value _ _ => none

/-- The registration call one component contributes when it is processed
against a bound server: one entry when its metadata extraction succeeds,
nothing when it has no matching metadata or extraction raises. -/
def regEntry (srv : Nat) (c : Component) : List (Nat × RegCall) :=
  match regCallOf c with
  | .ok (some rc) => [(srv, rc)]
  | _ => []

/-- The registration calls a list of components contributes, in order. -/
def regEntries (srv : Nat) : List Component → List (Nat × RegCall)
  | [] => []
  | c :: cs => regEntry srv c ++ regEntries srv cs

/-- A handler shaped like the repository's own tools (src/app/modules/
client.py): an async function whose return annotation is the class str
(a type object, not a string literal), completing normally. -/
def clientListFunc : PyFunc :=
  { modName := "app.modules.client"
    funcName := "client_list"
    isAsync := true
    retAnn := .typeAnn "str"
    run := fun _ => ([], .ok (.str "[]")) }

/-- The component that @tool_metadata builds around clientListFunc, with
the name and description used in src/app/modules/client.py lines 24-30. -/
def clientListComponent : Component :=
  tool_metadata "list_plex_clients"
    "List all Plex clients currently connected to the server" none clientListFunc

/-- A second and third tool component, for the FIFO scenario. -/
def detailsComponent : Component :=
  tool_metadata "get_client_details" "Get details about a client" none clientListFunc

/-- Third declared tool of the FIFO scenario. -/
def timelinesComponent : Component :=
  tool_metadata "get_client_timelines" "Get client timelines" none clientListFunc

/-- A custom-route component, as @custom_route_metadata builds it. -/
def healthRouteComponent : Component :=
  custom_route_metadata "/health" ["GET"] none true clientListFunc

/-- A synchronous zero-argument handler returning 42, for the wrap-time
invocation behaviour of handle_api_errors's sync branch. -/
def syncFortyTwo : PyFunc :=
  { modName := "m"
    funcName := "f"
    isAsync := false
    retAnn := .strAnn "str"
    run := fun _ => ([], .ok (.int 42)) }

/-- An async handler annotated with the class str (as every handler in
src/app/modules/client.py is) whose execution raises a generic
exception. -/
def raisingTypeAnnFunc : PyFunc :=
  { modName := "m"
    funcName := "g"
    isAsync := true
    retAnn := .typeAnn "str"
    run := fun _ => ([], .error (.otherErr "boom")) }

/-- An async handler with the string return annotation "Dict[str, Any]"
whose execution raises httpx.ConnectError against a concrete URL. -/
def connFailFunc : PyFunc :=
  { modName := "m"
    funcName := "h"
    isAsync := true
    retAnn := .strAnn "Dict[str, Any]"
    run := fun _ => ([], .error (.connectErr "http://example.com:32400")) }

/-- The empty, unbound initial state of the singleton. -/
def initialState : QState :=
  { components := [], mcpApp := none, regLog := [] }

/-- Helper: draining a component list against a bound server registers
exactly the calls of some prefix of the list (all of it on success),
leaves components and the bound server untouched, and only extends the
registration log. -/
theorem processAll_spec (srv : Nat) (cs : List Component) :
    ∀ (s : QState), s.mcpApp = some srv →
    ∃ k, k ≤ cs.length ∧
      (processAll s cs).1 = { s with regLog := s.regLog ++ regEntries srv (cs.take k) } ∧
      ((processAll s cs).2 = .ok () → k = cs.length) := by
  induction cs with
  | nil =>
    intro s _
    exact ⟨0, by simp [processAll, regEntries]⟩
  | cons c rest ih =>
    intro s h
    rcases hr : regCallOf c with e | o
    · refine ⟨0, by simp, ?_, ?_⟩
      · have hstep : processAll s (c :: rest) = (s, .error e) := by
          simp [processAll, processComponent, h, hr]
        simp [hstep, regEntries]
      · intro hok
        rw [show processAll s (c :: rest) = (s, .error e) by
          simp [processAll, processComponent, h, hr]] at hok
        simp at hok
    · cases o with
      | none =>
        have hstep : processAll s (c :: rest) = processAll s rest := by
          simp [processAll, processComponent, h, hr]
        obtain ⟨k, hk, hst, hok⟩ := ih s h
        refine ⟨k + 1, by simpa using Nat.succ_le_succ hk, ?_, ?_⟩
        · rw [hstep, hst]
          simp [regEntries, regEntry, hr]
        · intro hk2
          rw [hstep] at hk2
          simp [hok hk2]
      | some rc =>
        have hstep : processAll s (c :: rest) =
            processAll { s with regLog := s.regLog ++ [(srv, rc)] } rest := by
          simp [processAll, processComponent, h, hr]
        obtain ⟨k, hk, hst, hok⟩ := ih { s with regLog := s.regLog ++ [(srv, rc)] } h
        refine ⟨k + 1, by simpa using Nat.succ_le_succ hk, ?_, ?_⟩
        · rw [hstep, hst]
          simp [regEntries, regEntry, hr]
        · intro hk2
          rw [hstep] at hk2
          simp [hok hk2]

/-- C1 (counterexample): the spec says apply_decorators(A, B)(H) behaves
as B(A(H)).  With the probe wrappers A = (add one after the call) and
B = (double after the call) on the identity handler at input 1, the
composed handler yields 3, i.e. A(B(H)), while B(A(H)) yields 4: the
composition order is the opposite of the claimed one. -/
theorem apply_decorators_order_counterexample :
    apply_decorators
        [(fun f => fun n : Nat => f n + 1), (fun f => fun n : Nat => f n * 2)]
        (fun n : Nat => n) 1 = 3 ∧
    (fun f => fun n : Nat => f n * 2)
        ((fun f => fun n : Nat => f n + 1) (fun n : Nat => n)) 1 = 4 :=
  ⟨rfl, rfl⟩

/-- C1 (amended): apply_decorators applies the FIRST wrapper in the list
outermost and the last innermost, mirroring stacked decorator syntax:
apply_decorators [D1, ..., Dn] H = D1(D2(...(Dn(H)))), and in particular
apply_decorators [A, B] H = A(B(H)). -/
theorem apply_decorators_first_outermost :
    (∀ (α : Type) (ds : List (α → α)) (H : α),
      apply_decorators ds H = List.foldr (fun d a => d a) H ds) ∧
    (∀ (α : Type) (A B : α → α) (H : α), apply_decorators [A, B] H = A (B H)) := by
  constructor
  · intro α ds H
    simp [apply_decorators, List.foldl_reverse]
  · intro α A B H
    rfl

/-- C2 (code bug): the sync branch of handle_api_errors returns
sync_wrapper() - it invokes the handler at wrapping time with no
arguments and hands back the resulting value, not a callable.  Wrapping
the synchronous zero-argument handler returning 42 yields the plain
value 42, and the result is not a function for any function body. -/
theorem handle_api_errors_sync_invokes_at_wrap_time :
    handle_api_errors syncFortyTwo = .value [] (.ok (.int 42)) ∧
    ∀ g : PyFunc, handle_api_errors syncFortyTwo ≠ WrapResult.func g := by
  refine ⟨rfl, ?_⟩
  intro g h
  simp [handle_api_errors, syncFortyTwo] at h

/-- C3 (code bug): for an async handler whose declared return annotation
is a type object (the class str, as for every handler in
src/app/modules/client.py), an exception raised during execution is NOT
normalized: format_error applies the substring operator to the
annotation object, which raises TypeError, and that TypeError propagates
out of the wrapped handler instead of the promised error payload. -/
theorem handle_api_errors_reraises_on_type_annotation :
    runWrapped (handle_api_errors raisingTypeAnnFunc) [] =
      some ([], .error (.typeErr "argument of type is not iterable")) := rfl

/-- C4 (code bug): with the queue Bound (a server stored), declaring a
component that carries only _custom_route_metadata is silently dropped:
_process_component has no branch for routes, so the descriptor is
neither forwarded to any registration entry point (the registration log
stays empty) nor queued (get_pending stays empty), and no error is
raised. -/
theorem route_component_dropped_while_bound :
    get_pending (add { components := [], mcpApp := some 5, regLog := [] }
        healthRouteComponent).1 = [] ∧
    ((add { components := [], mcpApp := some 5, regLog := [] }
        healthRouteComponent).1).regLog = [] ∧
    (add { components := [], mcpApp := some 5, regLog := [] }
        healthRouteComponent).2 = .ok () :=
  ⟨rfl, rfl, rfl⟩

/-- C5 (code bug): declaring one tool while Unbound does queue it
(get_pending has length 1), but the subsequent process(server) crashes
with AttributeError instead of registering it: tool_metadata stores the
metadata as a plain dict and _process_component reads it back with
attribute access (._tool_metadata.name).  The server's tool-registration
API is never invoked (the registration log stays empty) and the queue
has already been cleared. -/
theorem single_tool_process_attribute_crash :
    (get_pending (add initialState clientListComponent).1).length = 1 ∧
    process (add initialState clientListComponent).1 7 =
      ({ components := [], mcpApp := some 7, regLog := [] },
        .error (.attrErr "name")) :=
  ⟨rfl, rfl⟩

/-- C6 (counterexample): calling process a second time with a different
server replaces the stored server reference: after process(server 1)
then process(server 2) the stored reference is server 2, not server 1. -/
theorem bound_server_replaced_counterexample :
    ¬ (((process (process initialState 1).1 2).1).mcpApp = some 1) ∧
    ((process (process initialState 1).1 2).1).mcpApp = some 2 := by
  decide

/-- C6 (amended): every call to process(server) unconditionally stores
its server argument as the bound-server reference, replacing whatever
was stored before; in particular a second call with a different server
drains newly queued descriptors against the NEW server reference. -/
theorem process_always_overwrites_server :
    ∀ (s : QState) (srv : Nat), ((process s srv).1).mcpApp = some srv := by
  intro s srv
  have h : process s srv =
      processAll { components := [], mcpApp := some srv, regLog := s.regLog }
        s.components := rfl
  obtain ⟨k, _, hst, _⟩ := processAll_spec srv s.components
    { components := [], mcpApp := some srv, regLog := s.regLog } rfl
  rw [h, hst]

/-- Helper: on a coroutine function, handle_api_errors returns a wrapper
which runs the inner function and normalizes a raised exception with the
except chain against the function's return annotation. -/
theorem handle_api_errors_async_run (f : PyFunc) (h : f.isAsync = true)
    (args : List PyVal) :
    runWrapped (handle_api_errors f) args =
      some (match (f.run args).2 with
        | .ok v => ((f.run args).1, .ok v)
        | .error e => ((f.run args).1, handleException f.retAnn e)) := by
  obtain ⟨mn, fn, ia, ra, run⟩ := f
  subst h
  rfl

/-- C7 (counterexample): a fully wrapped handler (log_and_handle_errors)
that raises a connectivity failure does not propagate it, but the value
it returns is {"error": message} (for its Dict-mentioning string return
annotation), NOT the claimed {"status": "error", "message": message}:
format_error never builds a status/message mapping. -/
theorem connect_error_status_shape_counterexample :
    runWrapped (log_and_handle_errors connFailFunc) [] =
      some ([LogRec.preCall "m:h" [], LogRec.postCall "m:h"],
        .ok (.dict [("error",
          .str "Connection error: Cannot connect to resource at http://example.com:32400")])) ∧
    PyVal.dict [("error",
        .str "Connection error: Cannot connect to resource at http://example.com:32400")] ≠
      PyVal.dict [("status", .str "error"),
        ("message",
          .str "Connection error: Cannot connect to resource at http://example.com:32400")] := by
  refine ⟨rfl, ?_⟩
  intro h
  injection h with h1
  simp at h1

/-- C7 (amended): for every asynchronous handler whose declared return
annotation is a string literal, when its execution raises a connect
error against url the fully wrapped handler returns, instead of
propagating, the message "Connection error: Cannot connect to resource
at url" shaped by the annotation: {"error": message} when the
annotation mentions Dict, [{"error": message}] when it mentions List,
and the bare message string otherwise (the spec's status/message
envelope never occurs). -/
theorem connect_error_normalized_shape :
    ∀ (f : PyFunc) (args : List PyVal) (url ann : String) (lg : List LogRec),
    f.isAsync = true →
    f.retAnn = .strAnn ann →
    f.run args = (lg, .error (.connectErr url)) →
    runWrapped (log_and_handle_errors f) args =
      some (LogRec.preCall (f.modName ++ ":" ++ f.funcName) args ::
          lg ++ [LogRec.postCall (f.modName ++ ":" ++ f.funcName)],
        .ok (if strContains "Dict" ann then
            .dict [("error",
              .str ("Connection error: Cannot connect to resource at " ++ url))]
          else if strContains "List" ann then
            .list [.dict [("error",
              .str ("Connection error: Cannot connect to resource at " ++ url))]]
          else .str ("Connection error: Cannot connect to resource at " ++ url))) := by
  intro f args url ann lg hasync hann hrun
  have hlog : (log_function_call f).run args =
      (LogRec.preCall (f.modName ++ ":" ++ f.funcName) args ::
        lg ++ [LogRec.postCall (f.modName ++ ":" ++ f.funcName)],
        .error (.connectErr url)) := by
    simp [log_function_call, hrun]
  have hasync2 : (log_function_call f).isAsync = true := hasync
  have hann2 : (log_function_call f).retAnn = .strAnn ann := hann
  rw [log_and_handle_errors, handle_api_errors_async_run _ hasync2, hlog, hann2]
  simp only [handleException, format_error]
  cases h1 : strContains "Dict" ann <;> cases h2 : strContains "List" ann <;>
    simp [h1, h2]

/-- C7 (witness): the amended statement evaluated on the concrete
raising handler connFailFunc. -/
theorem connect_error_normalized_shape_witness :
    runWrapped (log_and_handle_errors connFailFunc) [] =
      some ([LogRec.preCall "m:h" [], LogRec.postCall "m:h"],
        .ok (.dict [("error",
          .str "Connection error: Cannot connect to resource at http://example.com:32400")])) :=
  (connect_error_normalized_shape connFailFunc [] "http://example.com:32400"
    "Dict[str, Any]" [] rfl rfl rfl).trans (by rfl)

/-- C8 (code bug): three tools declared while Unbound are queued in
declaration order, but process(server) forwards none of them to the
server's registration API: draining visits the first descriptor and
crashes there with AttributeError (dict metadata read as attributes), so
the registration log stays empty and the remaining descriptors - whose
queue was already cleared - are lost. -/
theorem fifo_drain_crashes_before_server :
    get_pending (add (add (add initialState clientListComponent).1
        detailsComponent).1 timelinesComponent).1 =
      [clientListComponent, detailsComponent, timelinesComponent] ∧
    process (add (add (add initialState clientListComponent).1
        detailsComponent).1 timelinesComponent).1 9 =
      ({ components := [], mcpApp := some 9, regLog := [] },
        .error (.attrErr "name")) :=
  ⟨rfl, rfl⟩

/-- C9 (confirmed): the instrumentation wrapper log_function_call emits
exactly one pre-call record (carrying the qualified identity
module:name and the call arguments) before the inner handler's own
emissions, and exactly one post-call duration record after them; the
inner result, normal value or raised exception, passes through
unchanged, so the post-call record is emitted on every exit path,
including when the handler raises (second conjunct). -/
theorem log_function_call_pre_post_records :
    (∀ (f : PyFunc) (args : List PyVal),
      (log_function_call f).run args =
        (LogRec.preCall (f.modName ++ ":" ++ f.funcName) args ::
            (f.run args).1 ++ [LogRec.postCall (f.modName ++ ":" ++ f.funcName)],
          (f.run args).2)) ∧
    (∀ (f : PyFunc) (args : List PyVal) (lg : List LogRec) (e : PyErr),
      f.run args = (lg, .error e) →
      (log_function_call f).run args =
        (LogRec.preCall (f.modName ++ ":" ++ f.funcName) args ::
            lg ++ [LogRec.postCall (f.modName ++ ":" ++ f.funcName)],
          .error e)) := by
  constructor
  · intro f args
    rfl
  · intro f args lg e h
    simp [log_function_call, h]

/-- C10 (confirmed): process snapshots and clears the queue before
forwarding anything: after any call to process, get_pending is empty
(first conjunct) - also when forwarding raised part-way - and the
registration log has grown by exactly the calls of some prefix of the
snapshot (the whole snapshot when process returned normally), so
descriptors past a failure point are neither retained in the queue nor
ever registered. -/
theorem process_snapshot_clear_then_forward :
    ∀ (s : QState) (srv : Nat),
    get_pending (process s srv).1 = [] ∧
    ∃ k, k ≤ s.components.length ∧
      ((process s srv).1).regLog =
        s.regLog ++ regEntries srv (s.components.take k) ∧
      ((process s srv).2 = .ok () → k = s.components.length) := by
  intro s srv
  have h : process s srv =
      processAll { components := [], mcpApp := some srv, regLog := s.regLog }
        s.components := rfl
  obtain ⟨k, hk, hst, hok⟩ := processAll_spec srv s.components
    { components := [], mcpApp := some srv, regLog := s.regLog } rfl
  exact ⟨by rw [get_pending, h, hst], k, hk, by rw [h, hst], by rw [h]; exact hok⟩

end PlexWrappers
